import Mathlib

/-!
Verification of the mcp-simple-arxiv repository core: the rate-limited
arXiv API client (`mcp_simple_arxiv/arxiv_client.py`) and the date-filter
construction logic (`mcp_simple_arxiv/server.py`).

The Python code is shallowly embedded: pure processing (entry parsing,
date-filter construction, feed post-processing) becomes Lean functions
over `List Char` / `String`; the network and the PDF-conversion library
are oracles supplied as explicit outcome parameters; the rate gate is a
step relation over rational wall-clock time.  Python `str` operations are
re-implemented over `List Char` (code points), matching CPython on the
ASCII inputs the code handles.
-/

namespace McpArxiv

/-! ## Python string primitives (over `List Char`) -/

/-- Whitespace set of Python `str.split()` / `str.rstrip()` (ASCII part:
space, tab, newline, carriage return, vertical tab, form feed). -/
def pyIsSpace (c : Char) : Bool :=
  c == ' ' || c == '\t' || c == '\n' || c == '\r' ||
  c == Char.ofNat 11 || c == Char.ofNat 12

/-- Python `s.rstrip()`: drop trailing whitespace. -/
def rstripChars (s : List Char) : List Char :=
  (s.reverse.dropWhile pyIsSpace).reverse

/-- Accumulator pass of Python `s.split()` (split on whitespace runs,
dropping empty pieces). `acc` holds the current word reversed. -/
def pyWordsAux : List Char → List Char → List (List Char)
  | [], acc => if acc.isEmpty then [] else [acc.reverse]
  | c :: cs, acc =>
      if pyIsSpace c then
        if acc.isEmpty then pyWordsAux cs [] else acc.reverse :: pyWordsAux cs []
      else pyWordsAux cs (c :: acc)

/-- Python `s.split()` with no separator argument. -/
def pyWords (s : List Char) : List (List Char) := pyWordsAux s []

/-- Leftmost occurrence of the (non-empty) separator `sep` in `s`:
`some (before, after)` with `s = before ++ sep ++ after` and no occurrence
inside `before`, else `none`. -/
def findSep (sep : List Char) : List Char → Option (List Char × List Char)
  | [] => if sep.isPrefixOf [] then some ([], []) else none
  | c :: cs =>
      if sep.isPrefixOf (c :: cs) then some ([], (c :: cs).drop sep.length)
      else (findSep sep cs).map (fun pq => (c :: pq.1, pq.2))

/-- Fuelled worker for `pySplit`; fuel bounds the number of pieces. -/
def pySplitAux (sep : List Char) : Nat → List Char → List (List Char)
  | 0, s => [s]
  | fuel + 1, s =>
      match findSep sep s with
      | none => [s]
      | some pq => pq.1 :: pySplitAux sep fuel pq.2

/-- Python `s.split(sep)` for a non-empty separator: non-overlapping
left-to-right matches. -/
def pySplit (sep s : List Char) : List (List Char) :=
  pySplitAux sep (s.length + 1) s

/-- Python string `<`: lexicographic comparison of code points. -/
def charListLt : List Char → List Char → Bool
  | [], [] => false
  | [], _ :: _ => true
  | _ :: _, [] => false
  | a :: as, b :: bs =>
      if a.toNat < b.toNat then true
      else if b.toNat < a.toNat then false
      else charListLt as bs

/-- Python `a > b` on strings. -/
def pyStrGt (a b : String) : Bool := charListLt b.data a.data

def isAsciiDigit (c : Char) : Bool := 48 ≤ c.toNat && c.toNat ≤ 57

def digitVal (c : Char) : Nat := c.toNat - 48

def digitsToNat (ds : List Char) : Nat :=
  ds.foldl (fun acc c => acc * 10 + digitVal c) 0

def digitChar (n : Nat) : Char := Char.ofNat (48 + n)

/-- Zero-padded width-2 decimal, as `strftime` `%m` / `%d` render it. -/
def pad2 (n : Nat) : List Char := [digitChar (n / 10 % 10), digitChar (n % 10)]

def pad4 (n : Nat) : List Char :=
  [digitChar (n / 1000 % 10), digitChar (n / 100 % 10),
   digitChar (n / 10 % 10), digitChar (n % 10)]

/-- Rendering of the year by `strftime` `%Y` on the target platform
(CPython on glibc): plain decimal, NOT zero-padded, so years below 1000
render with fewer than four digits.  Only years 1..9999 are reachable
(`strptime` `%Y` consumes exactly four digits and `datetime` requires
year ≥ 1). -/
def yearStr (y : Nat) : List Char :=
  if y < 10 then [digitChar y]
  else if y < 100 then [digitChar (y / 10), digitChar (y % 10)]
  else if y < 1000 then [digitChar (y / 100), digitChar (y / 10 % 10), digitChar (y % 10)]
  else pad4 y

/-- Digit run of Python `int()`: non-empty digits with single underscores
allowed between digits. -/
def pyIntDigitsAux : Nat → List Char → Option Nat
  | acc, [] => some acc
  | acc, c :: cs =>
      if isAsciiDigit c then pyIntDigitsAux (acc * 10 + digitVal c) cs
      else if c == Char.ofNat 95 then
        match cs with
        | d :: ds => if isAsciiDigit d then pyIntDigitsAux (acc * 10 + digitVal d) ds else none
        | [] => none
      else none

def pyIntDigits : List Char → Option Nat
  | [] => none
  | c :: cs => if isAsciiDigit c then pyIntDigitsAux (digitVal c) cs else none

/-- Python `int(s)` for an ASCII string: surrounding whitespace stripped,
optional single sign, then digits (underscore grouping allowed).
`none` models the `ValueError` the caller catches. -/
def pyInt (s : String) : Option Int :=
  let t := rstripChars (s.data.dropWhile pyIsSpace)
  match t with
  | c :: cs =>
      if c == '+' then (pyIntDigits cs).map (fun n => (n : Int))
      else if c == Char.ofNat 45 then (pyIntDigits cs).map (fun n => -(n : Int))
      else (pyIntDigits t).map (fun n => (n : Int))
  | [] => none

/-! ## Date parsing (`datetime.strptime(s, "%Y-%m-%d")`) -/

/-- Days in a month of the proleptic Gregorian calendar (CPython
`datetime`). -/
def daysInMonth (y m : Nat) : Nat :=
  if m = 2 then
    if y % 4 = 0 && (y % 100 != 0 || y % 400 = 0) then 29 else 28
  else if m = 4 || m = 6 || m = 9 || m = 11 then 30
  else 31

def allDigits (s : List Char) : Bool := s.all isAsciiDigit

/-- CPython `datetime.strptime(s, "%Y-%m-%d")`, as `some (y, m, d)` or
`none` for the `ValueError` the caller catches.  `%Y` consumes exactly
four digits; `%m` and `%d` consume one or two digits whose value is in
range (regexes `1[0-2]|0[1-9]|[1-9]` and `3[01]|[12]\d|0[1-9]|[1-9]`);
the whole string must be consumed; then the `datetime` constructor
requires year ≥ 1 and the day to exist in the month. -/
def parseYMD (s : String) : Option (Nat × Nat × Nat) :=
  match pySplit [Char.ofNat 45] s.data with
  | [ys, ms, ds] =>
      if ys.length = 4 && allDigits ys &&
         0 < ms.length && ms.length ≤ 2 && allDigits ms &&
         0 < ds.length && ds.length ≤ 2 && allDigits ds then
        let y := digitsToNat ys
        let m := digitsToNat ms
        let d := digitsToNat ds
        if 1 ≤ y && 1 ≤ m && m ≤ 12 && 1 ≤ d && d ≤ daysInMonth y m then
          some (y, m, d)
        else none
      else none
  | _ => none

/-- Rendering `parsed.strftime("%Y%m%d")` for a parsed date. -/
def ymdCompact (y m d : Nat) : String :=
  String.mk (yearStr y ++ pad2 m ++ pad2 d)

/-- Single quote character, for reproducing the Python error messages. -/
def sq : String := String.singleton (Char.ofNat 39)

namespace Server

/-- Python truthiness of an optional string argument (`None` and the
empty string are falsy). -/
def truthyOpt : Option String → Bool
  | none => false
  | some s => !s.isEmpty

/-- Error text of `parse_date_filter` for a bad `date_from`. -/
def invalidFromMsg (s : String) : String :=
  "Invalid date_from format: " ++ sq ++ s ++ sq ++ ". Expected YYYY-MM-DD."

/-- Error text of `parse_date_filter` for a bad `date_to`. -/
def invalidToMsg (s : String) : String :=
  "Invalid date_to format: " ++ sq ++ s ++ sq ++ ". Expected YYYY-MM-DD."

/-- Error text of `parse_date_filter` for a reversed range. -/
def orderMsg : String := "date_from cannot be after date_to."

/-- Fixed lower bound used when only `date_to` is given (arXiv founding,
August 1991). -/
def arxivFloor : String := "199108010000"

/-- `server.parse_date_filter(date_from, date_to)`, lines 48-106 of
`mcp_simple_arxiv/server.py`.  `today` is `date.today().strftime("%Y%m%d")`,
passed explicitly to keep the function pure.  Returns
`(filter_string, error_message)` exactly as the Python does. -/
def parse_date_filter (today : String) (date_from date_to : Option String) :
    String × Option String :=
  if !truthyOpt date_from && !truthyOpt date_to then ("", none)
  else
    -- if date_from: try parse else error return
    let fromStep : Except String (Option String) :=
      if truthyOpt date_from then
        match parseYMD (date_from.getD "") with
        | some (y, m, d) => .ok (some (ymdCompact y m d ++ "0000"))
        | none => .error (invalidFromMsg (date_from.getD ""))
      else .ok none
    match fromStep with
    | .error e => ("", some e)
    | .ok arxiv_date_from =>
      let toStep : Except String (Option String) :=
        if truthyOpt date_to then
          match parseYMD (date_to.getD "") with
          | some (y, m, d) => .ok (some (ymdCompact y m d ++ "2359"))
          | none => .error (invalidToMsg (date_to.getD ""))
        else .ok none
      match toStep with
      | .error e => ("", some e)
      | .ok arxiv_date_to =>
        -- defaults for open-ended ranges
        let arxiv_date_to :=
          if arxiv_date_from.isSome && !arxiv_date_to.isSome then
            some (today ++ "2359")
          else arxiv_date_to
        let arxiv_date_from :=
          if arxiv_date_to.isSome && !arxiv_date_from.isSome then
            some arxivFloor
          else arxiv_date_from
        -- order check (Python string `>`), then the f-string build; at this
        -- point both options are in fact set (`"None"` mirrors how an unset
        -- one would render in the f-string)
        if arxiv_date_from.isSome && arxiv_date_to.isSome &&
           pyStrGt (arxiv_date_from.getD "None") (arxiv_date_to.getD "None") then
          ("", some orderMsg)
        else
          ("submittedDate:[" ++ arxiv_date_from.getD "None" ++ " TO " ++
             arxiv_date_to.getD "None" ++ "]", none)

end Server

/-! ## The arXiv client (`mcp_simple_arxiv/arxiv_client.py`) -/

namespace ArxivClient

/-- One link dictionary of a feed entry (`entry['links']`); non-dict list
members, which the loop skips, are simply not listed. -/
structure RawLink where
  type : Option String
  href : Option String
deriving DecidableEq

/-- One author of a feed entry; `name` is `none` when the member has no
`name` key/attribute (such members are skipped). -/
structure RawAuthor where
  name : Option String
deriving DecidableEq

/-- One category tag of a feed entry; `term` is `none` when the member
has no `term` key/attribute (such members are skipped). -/
structure RawTag where
  term : Option String
deriving DecidableEq

/-- A raw feed entry as the duck-typed Python reads it.  String fields
default to `""` exactly as `entry.get(key, '')` does;
`arxiv_primary_category` is the `term` of that field when the field is
present and carries one (`entry['arxiv_primary_category'].get('term')`,
which may itself be the empty string). -/
structure RawEntry where
  id : String := ""
  title : String := ""
  links : List RawLink := []
  authors : List RawAuthor := []
  arxiv_primary_category : Option String := none
  tags : List RawTag := []
  published : String := ""
  updated : String := ""
  summary : String := ""
  arxiv_comment : String := ""
  arxiv_journal_ref : String := ""
  arxiv_doi : String := ""
deriving DecidableEq

/-- The parsed paper dictionary `_parse_entry` returns. -/
structure Paper where
  id : String
  title : String
  authors : List String
  primary_category : Option String
  categories : List String
  published : String
  updated : String
  summary : String
  comment : String
  journal_ref : String
  doi : String
  pdf_url : Option String
  abstract_url : Option String
  html_url : Option String
deriving DecidableEq

/-- `ArxivClient._clean_text`: `" ".join(text.split())`. -/
def clean_text (text : String) : String :=
  String.mk (List.intercalate [' '] (pyWords text.data))

/-- `ArxivClient._get_html_url`: `arxiv_id.split('v')[0]` substituted into
the HTML-mirror template.  `split('v')[0]` is the prefix of the id before
its FIRST letter v (the whole id when there is none). -/
def get_html_url (arxiv_id : String) : String :=
  "https://arxiv.org/html/" ++ String.mk (arxiv_id.data.takeWhile (fun c => c != 'v'))

/-- The link-classification loop of `_parse_entry` (lines 77-85): a later
matching link overwrites an earlier one; a matching link with no `href`
key stores `None`. -/
def classifyLinks (links : List RawLink) : Option String × Option String :=
  links.foldl
    (fun acc link =>
      if link.type = some "application/pdf" then (link.href, acc.2)
      else if link.type = some "text/html" then (acc.1, link.href)
      else acc)
    (none, none)

/-- `entry.get('id', '').split("/abs/")[-1].rstrip()`. -/
def extractId (raw : String) : String :=
  String.mk (rstripChars ((pySplit "/abs/".data raw.data).getLastD []))

/-- `ArxivClient._parse_entry` (lines 75-138). -/
def parse_entry (entry : RawEntry) : Paper :=
  let pdfAbs := classifyLinks entry.links
  let paper_id := extractId entry.id
  let html_url := if paper_id ≠ "" then some (get_html_url paper_id) else none
  let authors := entry.authors.filterMap (fun a => a.name)
  let primary_category := entry.arxiv_primary_category
  let categories := entry.tags.filterMap (fun t => t.term)
  -- `if primary_category and primary_category in categories:
  --      categories.remove(primary_category)`
  -- (`list.remove` deletes the first occurrence; `""` is falsy and never
  -- triggers the removal)
  let categories :=
    match primary_category with
    | some t => if t ≠ "" ∧ t ∈ categories then categories.erase t else categories
    | none => categories
  { id := paper_id
    title := clean_text entry.title
    authors := authors
    primary_category := primary_category
    categories := categories
    published := entry.published
    updated := entry.updated
    summary := clean_text entry.summary
    comment := clean_text entry.arxiv_comment
    journal_ref := entry.arxiv_journal_ref
    doi := entry.arxiv_doi
    pdf_url := pdfAbs.1
    abstract_url := pdfAbs.2
    html_url := html_url }

/-- The parsed body of an HTTP 2xx response, as `feedparser.parse` hands
it back: `entries` is `none` when the result has no `entries` key (the
"Invalid response" guard), and `opensearch_totalresults` is the raw
OpenSearch total-count string when the feed metadata carries one. -/
structure Feed where
  entries : Option (List RawEntry) := none
  opensearch_totalresults : Option String := none
deriving DecidableEq

/-- Outcome of one upstream HTTP GET: a parsed body, or the message of the
`httpx.HTTPError` raised by the request or by `raise_for_status()`. -/
def HttpOutcome := Except String Feed

/-- Externally visible actions of a client call, in program order:
a pass through the rate gate (`_wait_for_rate_limit`) or an HTTP GET
(`url`, and the `max_results` parameter when the query sends one). -/
inductive Event where
  | rateAcquire : Event
  | httpGet (url : String) (maxResults : Option Int) : Event
deriving DecidableEq

def baseUrl : String := "https://export.arxiv.org/api/query"

/-- Lines 193-201: `total_results = 0`, overwritten by the OpenSearch
total when it is present and `int()` accepts it. -/
def totalFromFeed (feed : Feed) : Int :=
  match feed.opensearch_totalresults with
  | some s => (pyInt s).getD 0
  | none => 0

/-- The search result container. -/
structure SearchResult where
  papers : List Paper
  total_results : Int
  results_returned : Int
deriving DecidableEq

/-- Actions `search` performs before the response is handled: the rate
gate (line 168), then the single GET with `max_results` clamped ABOVE by
the API cap (lines 171-182: `max_results = min(max_results, 2000)`).
There is no lower clamp in the code. -/
def searchEvents (max_results : Int) : List Event :=
  [Event.rateAcquire, Event.httpGet baseUrl (some (min max_results 2000))]

/-- Response handling of `search` (lines 186-221). -/
def searchValue (outcome : HttpOutcome) (query : String) (max_results : Int) :
    Except String SearchResult :=
  match outcome with
  | .error e => .error ("arXiv API HTTP error: " ++ e)
  | .ok feed =>
      match feed.entries with
      | none => .error "Invalid response from arXiv API"
      | some entries =>
          let total_results := totalFromFeed feed
          if entries.isEmpty then
            .ok { papers := [], total_results := total_results,
                  results_returned := 0 }
          else
            let papers := entries.map parse_entry
            let total_results :=
              if total_results = 0 then (papers.length : Int) else total_results
            .ok { papers := papers, total_results := total_results,
                  results_returned := (papers.length : Int) }

/-- `ArxivClient.search` (lines 140-221) with the HTTP layer supplied as
an oracle: the event trace the call emits, and its value or the message
of the `ValueError` it raises.  Sort parameters only flow into the query
string, so they are omitted. -/
def search (outcome : HttpOutcome) (query : String) (max_results : Int) :
    List Event × Except String SearchResult :=
  (searchEvents max_results, searchValue outcome query max_results)

/-- Actions `get_paper` performs before the response is handled (lines
238-247): the rate gate, then the GET with `id_list` and
`max_results=1`. -/
def getPaperEvents : List Event :=
  [Event.rateAcquire, Event.httpGet baseUrl (some 1)]

/-- Response handling of `get_paper` (lines 250-263). -/
def getPaperValue (outcome : HttpOutcome) (paper_id : String) :
    Except String Paper :=
  match outcome with
  | .error e => .error ("arXiv API HTTP error: " ++ e)
  | .ok feed =>
      match feed.entries with
      | none => .error "Invalid response from arXiv API"
      | some [] => .error ("Paper not found: " ++ paper_id)
      | some (e :: _) => .ok (parse_entry e)

/-- `ArxivClient.get_paper` (lines 223-263) with the HTTP layer supplied
as an oracle. -/
def get_paper (outcome : HttpOutcome) (paper_id : String) :
    List Event × Except String Paper :=
  (getPaperEvents, getPaperValue outcome paper_id)

/-- Outcome of the PDF-to-Markdown conversion dispatched through
`asyncio.wait_for(loop.run_in_executor(...))`: the produced Markdown, a
raised exception message, or the 60-second `asyncio.TimeoutError`. -/
inductive ConvOutcome where
  | ok (markdown : String)
  | raised (msg : String)
  | timeout
deriving DecidableEq

/-- Oracles of one `get_paper_text_from_pdf` call: the metadata GET, the
PDF GET (its error = the exception the download raises), and the
conversion. -/
structure FullTextEnv where
  paperOutcome : HttpOutcome
  downloadOutcome : Except String Unit
  convOutcome : ConvOutcome

/-- `ArxivClient.get_paper_text_from_pdf` (lines 265-341).  The `get_paper`
call sits OUTSIDE the try block, so its exception propagates (`.error`);
everything after it is inside `try ... except`, so download or conversion
failures are returned as strings (`.ok`). -/
def get_paper_text_from_pdf (env : FullTextEnv) (paper_id : String) :
    List Event × Except String String :=
  match getPaperValue env.paperOutcome paper_id with
  | .error e => (getPaperEvents, .error e)
  | .ok paper =>
      -- `if not paper["pdf_url"]:` — None and the empty string are falsy
      if paper.pdf_url = none ∨ paper.pdf_url = some "" then
        (getPaperEvents, .ok ("No PDF URL found for paper: " ++ paper_id))
      else
        let events := getPaperEvents ++ [Event.httpGet (paper.pdf_url.getD "") none]
        match env.downloadOutcome with
        | .error e =>
            (events, .ok ("Error while converting paper to Markdown: " ++ e))
        | .ok _ =>
            match env.convOutcome with
            | .timeout =>
                (events, .ok ("Timeout: PDF conversion exceeded 60 seconds for paper "
                  ++ paper_id))
            | .raised e =>
                (events, .ok ("Error while converting paper to Markdown: " ++ e))
            | .ok markdown => (events, .ok markdown)

end ArxivClient

namespace Server

/-- The `get_full_paper_text` tool (`server.py` lines 316-328): a bare
pass-through of `arxiv_client.get_paper_text_from_pdf`, with no
try/except of its own. -/
def get_full_paper_text (env : ArxivClient.FullTextEnv) (paper_id : String) :
    Except String String :=
  (ArxivClient.get_paper_text_from_pdf env paper_id).2

end Server

/-! ## The rate gate (`ArxivClient._wait_for_rate_limit`, lines 51-58)

The method runs its whole check-sleep-record sequence inside
`async with self._lock`, so concurrent callers execute it one at a time
and the admissions form one sequential trace.  Wall-clock time is modelled
as `ℚ` seconds. -/

def MIN_INTERVAL : ℚ := 3

/-- Sleep the admitted execution performs (lines 54-57): with the previous
admission recorded at `tp` and the clock read at `now`, sleep
`3 - (now - tp)` seconds when under three seconds have elapsed, else
nothing. -/
def sleepDuration (last : Option ℚ) (now : ℚ) : ℚ :=
  match last with
  | none => 0
  | some tp => if now - tp < MIN_INTERVAL then MIN_INTERVAL - (now - tp) else 0

/-- The serialized executions of `_wait_for_rate_limit` from a given gate
state, listing the admission times they record.  One step reads the clock
at `t0` (line 55; the wall clock is monotone, so `t0` is not before the
previously recorded time), suspends for at least `sleepDuration` (the
event loop may resume it later, never earlier), and records the admission
time `t1` read at line 58 after the sleep. -/
inductive GateTrace : Option ℚ → List ℚ → Prop
  | nil (last : Option ℚ) : GateTrace last []
  | step (last : Option ℚ) (t0 t1 : ℚ) (rest : List ℚ)
      (hmono : ∀ tp, last = some tp → tp ≤ t0)
      (hsleep : t0 + sleepDuration last t0 ≤ t1)
      (htail : GateTrace (some t1) rest) :
      GateTrace last (t1 :: rest)

namespace ArxivClient

/-- Number of HTTP GETs in a trace. -/
def countGets (es : List Event) : Nat :=
  es.countP (fun e => match e with | .httpGet _ _ => true | .rateAcquire => false)

/-- Number of rate-gate admissions in a trace. -/
def countAcquires (es : List Event) : Nat :=
  es.countP (fun e => match e with | .rateAcquire => true | .httpGet _ _ => false)

/-- A trace in which every HTTP request passes through the rate gate:
no prefix holds more GETs than admissions (each request is covered by an
admission of its own). -/
def Gated (es : List Event) : Prop :=
  ∀ n, countGets (es.take n) ≤ countAcquires (es.take n)

/-- Python falsiness of the `pdf_url` field (`if not paper["pdf_url"]`). -/
def pdfMissing (p : Option String) : Prop := p = none ∨ p = some ""

end ArxivClient

/-! ## Reference definitions transcribed from the spec's words

These follow the CLAIMS' reference wording, not the source; they exist
only to be compared with the source-derived definitions above. -/

/-- Day rendering of the claim's reference definition of
`buildDateFilter`: the compact `YYYYMMDD` form, year zero-padded to four
digits. -/
def ymdCompactRef (y m d : Nat) : String :=
  String.mk (pad4 y ++ pad2 m ++ pad2 d)

/-- Reference definition of `buildDateFilter` as claim C3 states it:
(a) both dates absent → `("", none)`; (b) a present date that does not
parse as `YYYY-MM-DD` → `("", error naming the field)`; (c) a valid
`dateFrom` becomes compact day-start `YYYYMMDD0000`, a valid `dateTo`
day-end `YYYYMMDD2359`; (d) a missing `dateTo` defaults to today's
day-end and a missing `dateFrom` to `199108010000`; (e) resolved
`dateFrom` lexicographically greater than resolved `dateTo` →
`("", ordering error)`; (f) else the `submittedDate` range filter. -/
def buildDateFilterRef (today : String) (date_from date_to : Option String) :
    String × Option String :=
  if !Server.truthyOpt date_from && !Server.truthyOpt date_to then ("", none)
  else
    let fromStep : Except String (Option String) :=
      if Server.truthyOpt date_from then
        match parseYMD (date_from.getD "") with
        | some (y, m, d) => .ok (some (ymdCompactRef y m d ++ "0000"))
        | none => .error (Server.invalidFromMsg (date_from.getD ""))
      else .ok none
    match fromStep with
    | .error e => ("", some e)
    | .ok arxiv_date_from =>
      let toStep : Except String (Option String) :=
        if Server.truthyOpt date_to then
          match parseYMD (date_to.getD "") with
          | some (y, m, d) => .ok (some (ymdCompactRef y m d ++ "2359"))
          | none => .error (Server.invalidToMsg (date_to.getD ""))
        else .ok none
      match toStep with
      | .error e => ("", some e)
      | .ok arxiv_date_to =>
        let arxiv_date_to :=
          if arxiv_date_from.isSome && !arxiv_date_to.isSome then
            some (today ++ "2359")
          else arxiv_date_to
        let arxiv_date_from :=
          if arxiv_date_to.isSome && !arxiv_date_from.isSome then
            some Server.arxivFloor
          else arxiv_date_from
        if arxiv_date_from.isSome && arxiv_date_to.isSome &&
           pyStrGt (arxiv_date_from.getD "None") (arxiv_date_to.getD "None") then
          ("", some Server.orderMsg)
        else
          ("submittedDate:[" ++ arxiv_date_from.getD "None" ++ " TO " ++
             arxiv_date_to.getD "None" ++ "]", none)

/-- Claim C5's reference derivation of the HTML-mirror base id: strip a
trailing `vN` version suffix — a final `v` followed by one or more digits
— and leave any other id intact. -/
def stripVersionSuffixRef (s : String) : String :=
  let rev := s.data.reverse
  let ds := rev.takeWhile isAsciiDigit
  match rev.drop ds.length with
  | c :: rest => if ds ≠ [] ∧ c = 'v' then String.mk rest.reverse else s
  | [] => s

/-! ## Concrete fixtures for counterexamples and witnesses -/

namespace ArxivClient

/-- An entry of the old `solv-int` archive: its id holds a `v` that is
not a version suffix. -/
def entrySolv : RawEntry := { id := "http://arxiv.org/abs/solv-int/9712001" }

/-- An entry whose primary-category term is the empty string and also
appears among the tag terms. -/
def entryEmptyPrimary : RawEntry :=
  { arxiv_primary_category := some "", tags := [{ term := some "" }] }

/-- An entry whose primary category repeats among the tags. -/
def entryDup : RawEntry :=
  { arxiv_primary_category := some "cs.AI",
    tags := [{ term := some "cs.LG" }, { term := some "cs.AI" },
             { term := some "cs.AI" }] }

/-- An entry carrying a PDF link. -/
def entryWithPdf : RawEntry :=
  { id := "http://arxiv.org/abs/2103.08220v1",
    links := [{ type := some "application/pdf",
                href := some "https://arxiv.org/pdf/2103.08220v1" }] }

/-- An entry carrying no PDF link. -/
def entryNoPdf : RawEntry :=
  { id := "http://arxiv.org/abs/2103.08220v1",
    links := [{ type := some "text/html",
                href := some "https://arxiv.org/abs/2103.08220v1" }] }

/-- A feed whose single entry has a PDF link. -/
def feedWithPdf : Feed := { entries := some [entryWithPdf] }

/-- A feed whose single entry has no PDF link. -/
def feedNoPdf : Feed := { entries := some [entryNoPdf] }

/-- A feed with two entries but an upstream-reported total of 1. -/
def feedTwoEntries : Feed :=
  { entries := some [{}, {}], opensearch_totalresults := some "1" }

/-- A feed with no entries and an upstream-reported total of 7. -/
def feedEmptySeven : Feed :=
  { entries := some [], opensearch_totalresults := some "7" }

/-- A full-text environment whose lookup succeeds with a PDF link and
whose download and conversion succeed. -/
def fullEnvOk : FullTextEnv :=
  { paperOutcome := .ok feedWithPdf, downloadOutcome := .ok (),
    convOutcome := .ok "markdown" }

/-- A full-text environment whose lookup succeeds on `feedNoPdf`. -/
def fullEnvNoPdf : FullTextEnv :=
  { paperOutcome := .ok feedNoPdf, downloadOutcome := .ok (),
    convOutcome := .ok "markdown" }

end ArxivClient

/-! ## Helper lemmas -/

lemma dropWhile_head_false {p : Char → Bool} :
    ∀ {l : List Char} {c : Char} {cs : List Char},
      l.dropWhile p = c :: cs → p c = false := by
  intro l
  induction l with
  | nil => intro c cs h; simp at h
  | cons a as ih =>
      intro c cs h
      rw [List.dropWhile_cons] at h
      split at h
      · exact ih h
      · next hp => cases h; simpa using hp

lemma yearStr_eq_pad4 {y : Nat} (h : 1000 ≤ y) : yearStr y = pad4 y := by
  unfold yearStr
  rw [if_neg (by omega), if_neg (by omega), if_neg (by omega)]

lemma ymdCompact_eq_ref {y : Nat} (m d : Nat) (h : 1000 ≤ y) :
    ymdCompact y m d = ymdCompactRef y m d := by
  unfold ymdCompact ymdCompactRef
  rw [yearStr_eq_pad4 h]

/-- Admission times of a serialized gate trace are spaced by at least the
interval, and the first one is at least an interval after the recorded
state the trace starts from. -/
lemma gateTrace_spacing {last : Option ℚ} {ts : List ℚ} (h : GateTrace last ts) :
    ts.Chain' (fun a b => a + MIN_INTERVAL ≤ b) ∧
      (∀ tp t, last = some tp → ts.head? = some t → tp + MIN_INTERVAL ≤ t) := by
  induction h with
  | nil _ =>
      exact ⟨List.chain'_nil, by intro tp t _ ht; simp at ht⟩
  | step last t0 t1 rest hmono hsleep _ ih =>
      constructor
      · refine List.chain'_cons'.mpr ⟨?_, ih.1⟩
        intro b hb
        exact ih.2 t1 b rfl hb
      · intro tp t hlast ht
        rw [List.head?_cons, Option.some.injEq] at ht
        subst ht
        have h0 := hmono tp hlast
        rw [hlast] at hsleep
        simp only [sleepDuration] at hsleep
        unfold MIN_INTERVAL at hsleep ⊢
        split at hsleep
        · linarith
        · next hge => push_neg at hge; linarith

/-! ## Claim theorems -/

/-- C1: every pair of consecutive admissions recorded by the serialized
executions of `RateGate.acquire()` (`ArxivClient._wait_for_rate_limit`)
is at least `MIN_INTERVAL` (3.0 s) of wall-clock time apart; the lock
makes the check-sleep-record sequence mutually exclusive, so concurrent
callers form one trace and no two admissions fall within the interval. -/
theorem C1_rate_gate_spacing (ts : List ℚ) (h : GateTrace none ts) :
    ts.Chain' (fun a b => a + MIN_INTERVAL ≤ b) :=
  (gateTrace_spacing h).1

/-- Witness for C1: a concrete three-admission trace (admitted at times
0, 3 and 7) satisfies the trace relation, and the theorem yields its
spacing bound. -/
theorem C1_rate_gate_spacing_witness :
    GateTrace none [0, 3, 7] ∧
      List.Chain' (fun a b => a + MIN_INTERVAL ≤ b) ([0, 3, 7] : List ℚ) := by
  have ht : GateTrace none [0, 3, 7] := by
    refine GateTrace.step none 0 0 [3, 7] (fun tp h => by cases h) ?_ ?_
    · norm_num [sleepDuration]
    · refine GateTrace.step (some 0) 1 3 [7] ?_ ?_ ?_
      · intro tp h
        rw [Option.some.injEq] at h
        subst h
        norm_num
      · norm_num [sleepDuration, MIN_INTERVAL]
      · refine GateTrace.step (some 3) 6 7 [] ?_ ?_ (GateTrace.nil _)
        · intro tp h
          rw [Option.some.injEq] at h
          subst h
          norm_num
        · norm_num [sleepDuration, MIN_INTERVAL]
  exact ⟨ht, C1_rate_gate_spacing _ ht⟩

/-- C4 counterexample: `search` requested with `max_results = 0` sends
`max_results = 0` upstream — the claimed lower clamp to 1
(`max (min 0 2000) 1`) does not happen. -/
theorem C4_counterexample :
    ¬ ((ArxivClient.search (.ok {}) "q" 0).1 =
        [ArxivClient.Event.rateAcquire,
         ArxivClient.Event.httpGet ArxivClient.baseUrl (some (max (min 0 2000) 1))]) := by
  decide

/-- C4 amended: the effective `max_results` `search` sends upstream is
`min max_results 2000` — clamped above to the API cap of 2000, but NOT
raised to 1 from below (a requested value under 1 is passed through
unchanged). -/
theorem C4_max_results_clamped_above_only
    (o : ArxivClient.HttpOutcome) (q : String) (mr : Int) :
    (ArxivClient.search o q mr).1 =
      [ArxivClient.Event.rateAcquire,
       ArxivClient.Event.httpGet ArxivClient.baseUrl (some (min mr 2000))] ∧
    (2000 < mr → min mr 2000 = 2000) ∧
    (mr ≤ 2000 → min mr 2000 = mr) :=
  ⟨rfl, fun h => min_eq_right h.le, fun h => min_eq_left h⟩

lemma parse_entry_id (e : ArxivClient.RawEntry) :
    (ArxivClient.parse_entry e).id = ArxivClient.extractId e.id := rfl

lemma parse_entry_html_url (e : ArxivClient.RawEntry) :
    (ArxivClient.parse_entry e).html_url =
      (if ArxivClient.extractId e.id ≠ "" then
        some (ArxivClient.get_html_url (ArxivClient.extractId e.id)) else none) := rfl

/-- The base id `get_html_url` substitutes into the template is the
prefix of the id before its first `v`. -/
lemma get_html_url_spec (s : String) :
    ∃ base rest, s.data = base ++ rest ∧ (∀ c ∈ base, ¬ c = 'v') ∧
      (rest = [] ∨ ∃ rs, rest = 'v' :: rs) ∧
      ArxivClient.get_html_url s = "https://arxiv.org/html/" ++ String.mk base := by
  refine ⟨s.data.takeWhile (fun c => c != 'v'), s.data.dropWhile (fun c => c != 'v'),
    (List.takeWhile_append_dropWhile _ _).symm, ?_, ?_, rfl⟩
  · intro c hc
    have hp := List.mem_takeWhile_imp hc
    simpa using hp
  · cases hd : s.data.dropWhile (fun c => c != 'v') with
    | nil => exact Or.inl rfl
    | cons c cs =>
        have hf := dropWhile_head_false hd
        have hc : c = 'v' := by simpa using hf
        exact Or.inr ⟨cs, by rw [hc]⟩

/-- C5 counterexample: the raw entry with id
`http://arxiv.org/abs/solv-int/9712001` (old `solv-int` archive, no
version suffix) gets `htmlUrl = https://arxiv.org/html/sol`: the code
cuts at the FIRST `v` of the id (`split('v')[0]`), not at a trailing
`vN` suffix, which would leave the id intact here. -/
theorem C5_counterexample :
    (ArxivClient.parse_entry ArxivClient.entrySolv).id = "solv-int/9712001" ∧
    stripVersionSuffixRef "solv-int/9712001" = "solv-int/9712001" ∧
    (ArxivClient.parse_entry ArxivClient.entrySolv).html_url =
      some "https://arxiv.org/html/sol" ∧
    (ArxivClient.parse_entry ArxivClient.entrySolv).html_url ≠
      some ("https://arxiv.org/html/" ++
        stripVersionSuffixRef (ArxivClient.parse_entry ArxivClient.entrySolv).id) := by
  refine ⟨by decide, by decide, by decide, by decide⟩

/-- C5 amended: `htmlUrl` is present iff the extracted id is non-empty,
and its base id is the prefix of the id before the FIRST `v` (the whole
id when no `v` occurs — in particular this equals stripping a trailing
`vN` suffix only when the id holds no earlier `v`). -/
theorem C5_html_url_uses_prefix_before_first_v (entry : ArxivClient.RawEntry) :
    ((ArxivClient.parse_entry entry).html_url = none ↔
      (ArxivClient.parse_entry entry).id = "") ∧
    ∃ base rest,
      (ArxivClient.parse_entry entry).id.data = base ++ rest ∧
      (∀ c ∈ base, ¬ c = 'v') ∧
      (rest = [] ∨ ∃ rs, rest = 'v' :: rs) ∧
      (ArxivClient.parse_entry entry).html_url =
        (if (ArxivClient.parse_entry entry).id = "" then none
         else some ("https://arxiv.org/html/" ++ String.mk base)) := by
  rw [parse_entry_html_url, parse_entry_id]
  constructor
  · by_cases h : ArxivClient.extractId entry.id = "" <;> simp [h]
  · obtain ⟨base, rest, h1, h2, h3, h4⟩ :=
      get_html_url_spec (ArxivClient.extractId entry.id)
    refine ⟨base, rest, h1, h2, h3, ?_⟩
    by_cases h : ArxivClient.extractId entry.id = "" <;> simp [h, h4]

lemma parse_entry_primary (e : ArxivClient.RawEntry) :
    (ArxivClient.parse_entry e).primary_category = e.arxiv_primary_category := rfl

lemma parse_entry_categories (e : ArxivClient.RawEntry) :
    (ArxivClient.parse_entry e).categories =
      (match e.arxiv_primary_category with
       | some t =>
           if t ≠ "" ∧ t ∈ e.tags.filterMap (fun tag => tag.term) then
             (e.tags.filterMap (fun tag => tag.term)).erase t
           else e.tags.filterMap (fun tag => tag.term)
       | none => e.tags.filterMap (fun tag => tag.term)) := rfl

/-- C6 counterexample: a raw entry whose primary-category term is the
empty string, which also occurs among its tag terms.  Python's
`if primary_category and ...` treats `""` as falsy, so no occurrence is
removed: `categories` keeps `[""]` although the claim demands the
occurrence be excluded. -/
theorem C6_counterexample :
    ArxivClient.entryEmptyPrimary.arxiv_primary_category = some "" ∧
    ArxivClient.entryEmptyPrimary.tags.filterMap (fun tag => tag.term) = [""] ∧
    (ArxivClient.parse_entry ArxivClient.entryEmptyPrimary).primary_category = some "" ∧
    (ArxivClient.parse_entry ArxivClient.entryEmptyPrimary).categories = [""] ∧
    (ArxivClient.parse_entry ArxivClient.entryEmptyPrimary).categories ≠
      (ArxivClient.entryEmptyPrimary.tags.filterMap (fun tag => tag.term)).erase "" := by
  refine ⟨rfl, rfl, rfl, rfl, by decide⟩

/-- C6 amended: for a NON-EMPTY primary-category term occurring among
the tag terms, `categories` is the tag list with exactly the first
occurrence of that term removed — its count drops by one, every other
term's count is unchanged, order is preserved — and `primaryCategory`
still reports the term.  (An empty-string term escapes the removal:
Python truthiness, see the counterexample.) -/
theorem C6_primary_removed_once (entry : ArxivClient.RawEntry) (t : String)
    (hp : entry.arxiv_primary_category = some t) (hne : t ≠ "")
    (hmem : t ∈ entry.tags.filterMap (fun tag => tag.term)) :
    (ArxivClient.parse_entry entry).categories =
      (entry.tags.filterMap (fun tag => tag.term)).erase t ∧
    (ArxivClient.parse_entry entry).primary_category = some t ∧
    (ArxivClient.parse_entry entry).categories.count t + 1 =
      (entry.tags.filterMap (fun tag => tag.term)).count t ∧
    (∀ s, s ≠ t → (ArxivClient.parse_entry entry).categories.count s =
      (entry.tags.filterMap (fun tag => tag.term)).count s) := by
  have hcat : (ArxivClient.parse_entry entry).categories =
      (entry.tags.filterMap (fun tag => tag.term)).erase t := by
    rw [parse_entry_categories, hp]
    exact if_pos ⟨hne, hmem⟩
  refine ⟨hcat, by rw [parse_entry_primary, hp], ?_, ?_⟩
  · rw [hcat, List.count_erase_self]
    have hpos : 0 < (entry.tags.filterMap (fun tag => tag.term)).count t :=
      List.count_pos_iff.mpr hmem
    omega
  · intro s hs
    rw [hcat, List.count_erase_of_ne hs]

/-- Witness for C6: the entry whose primary `cs.AI` occurs twice among
the tags `["cs.LG", "cs.AI", "cs.AI"]` — exactly one `cs.AI` is removed,
`cs.LG` and the second `cs.AI` stay, and the primary is still
reported. -/
theorem C6_primary_removed_once_witness :
    (ArxivClient.parse_entry ArxivClient.entryDup).categories =
      (ArxivClient.entryDup.tags.filterMap (fun tag => tag.term)).erase "cs.AI" ∧
    (ArxivClient.parse_entry ArxivClient.entryDup).primary_category = some "cs.AI" ∧
    (ArxivClient.parse_entry ArxivClient.entryDup).categories.count "cs.AI" + 1 =
      (ArxivClient.entryDup.tags.filterMap (fun tag => tag.term)).count "cs.AI" ∧
    (∀ s, s ≠ "cs.AI" →
      (ArxivClient.parse_entry ArxivClient.entryDup).categories.count s =
        (ArxivClient.entryDup.tags.filterMap (fun tag => tag.term)).count s) :=
  C6_primary_removed_once ArxivClient.entryDup "cs.AI" rfl (by decide) (by decide)

/-- C7: on an upstream response with zero entries, `get_paper` raises the
not-found error naming the id (a hard failure), while `search` returns a
normal empty `SearchResult` carrying whatever total the upstream
metadata reported (possibly nonzero), not an error. -/
theorem C7_zero_entries (feed : ArxivClient.Feed) (paper_id q : String) (mr : Int)
    (h : feed.entries = some []) :
    ArxivClient.getPaperValue (.ok feed) paper_id =
      .error ("Paper not found: " ++ paper_id) ∧
    ArxivClient.searchValue (.ok feed) q mr =
      .ok { papers := [], total_results := ArxivClient.totalFromFeed feed,
            results_returned := 0 } := by
  constructor
  · simp [ArxivClient.getPaperValue, h]
  · simp [ArxivClient.searchValue, h]

/-- Witness for C7: a feed with no entries and an upstream-reported
total of 7 — the lookup of id `9999.99999` fails with the not-found
error, while the search returns the empty result with `totalResults = 7`
(nonzero) and `resultsReturned = 0`. -/
theorem C7_zero_entries_witness :
    ArxivClient.getPaperValue (.ok ArxivClient.feedEmptySeven) "9999.99999" =
      .error ("Paper not found: " ++ "9999.99999") ∧
    ArxivClient.searchValue (.ok ArxivClient.feedEmptySeven) "q" 10 =
      .ok { papers := [],
            total_results := ArxivClient.totalFromFeed ArxivClient.feedEmptySeven,
            results_returned := 0 } ∧
    ArxivClient.totalFromFeed ArxivClient.feedEmptySeven = 7 := by
  have h := C7_zero_entries ArxivClient.feedEmptySeven "9999.99999" "q" 10 rfl
  exact ⟨h.1, h.2, by decide⟩

/-- C9 counterexample: a feed with two entries whose OpenSearch metadata
reports a total of 1.  `search` returns `resultsReturned = 2` and
`totalResults = 1`, so `resultsReturned ≤ totalResults` fails even
though the total-count metadata was present and integer-parseable. -/
theorem C9_counterexample :
    ∃ r, ArxivClient.searchValue (.ok ArxivClient.feedTwoEntries) "q" 10 = .ok r ∧
      r.results_returned = 2 ∧ r.total_results = 1 ∧
      ¬ (r.results_returned ≤ r.total_results) ∧
      ArxivClient.feedTwoEntries.opensearch_totalresults = some "1" ∧
      pyInt "1" = some 1 := by
  refine ⟨_, rfl, by decide, by decide, by decide, rfl, by decide⟩

/-- C9 amended: every `SearchResult` has `resultsReturned =
papers.length`; when upstream omits the total, supplies a non-parseable
one, or (with entries present) reports 0, `totalResults` falls back to
`resultsReturned`; and `resultsReturned ≤ totalResults` holds PROVIDED
the parsed upstream total is at least the number of returned entries —
the code trusts a smaller reported total, in which case the inequality
fails (see the counterexample). -/
theorem C9_search_result_invariants (feed : ArxivClient.Feed) (q : String)
    (mr : Int) (r : ArxivClient.SearchResult)
    (h : ArxivClient.searchValue (.ok feed) q mr = .ok r) :
    r.results_returned = (r.papers.length : Int) ∧
    (feed.opensearch_totalresults = none → r.total_results = r.results_returned) ∧
    (∀ s, feed.opensearch_totalresults = some s → pyInt s = none →
      r.total_results = r.results_returned) ∧
    (ArxivClient.totalFromFeed feed = 0 → r.total_results = r.results_returned) ∧
    ((r.papers.length : Int) ≤ ArxivClient.totalFromFeed feed →
      r.results_returned ≤ r.total_results) := by
  cases he : feed.entries with
  | none => simp [ArxivClient.searchValue, he] at h
  | some entries =>
      by_cases hemp : entries.isEmpty
      · simp only [ArxivClient.searchValue, he, hemp, if_true] at h
        cases h
        refine ⟨rfl, ?_, ?_, ?_, ?_⟩
        · intro hnone
          simp [ArxivClient.totalFromFeed, hnone]
        · intro s hs hparse
          simp [ArxivClient.totalFromFeed, hs, hparse]
        · intro hmeta
          simp [hmeta]
        · intro hle
          simpa using hle
      · simp only [ArxivClient.searchValue, he, hemp, if_false, Bool.false_eq_true] at h
        cases h
        refine ⟨by simp, ?_, ?_, ?_, ?_⟩
        · intro hnone
          have hmeta : ArxivClient.totalFromFeed feed = 0 := by
            simp [ArxivClient.totalFromFeed, hnone]
          simp [hmeta]
        · intro s hs hparse
          have hmeta : ArxivClient.totalFromFeed feed = 0 := by
            simp [ArxivClient.totalFromFeed, hs, hparse]
          simp [hmeta]
        · intro hmeta
          simp [hmeta]
        · intro hle
          by_cases hmeta : ArxivClient.totalFromFeed feed = 0
          · simp [hmeta]
          · simp only [if_neg hmeta]
            simpa using hle

/-- Witness for C9: the empty feed reporting a total of 7 — the returned
result has `resultsReturned = 0 = papers.length`, and all the amended
clauses hold at it. -/
theorem C9_search_result_invariants_witness :
    ({ papers := [], total_results := 7, results_returned := 0 } :
        ArxivClient.SearchResult).results_returned =
      (({ papers := [], total_results := 7, results_returned := 0 } :
        ArxivClient.SearchResult).papers.length : Int) ∧
    (ArxivClient.feedEmptySeven.opensearch_totalresults = none →
      (7 : Int) = 0) ∧
    (∀ s, ArxivClient.feedEmptySeven.opensearch_totalresults = some s →
      pyInt s = none → (7 : Int) = 0) ∧
    (ArxivClient.totalFromFeed ArxivClient.feedEmptySeven = 0 → (7 : Int) = 0) ∧
    (((([] : List ArxivClient.Paper).length : Int) ≤
        ArxivClient.totalFromFeed ArxivClient.feedEmptySeven) →
      (0 : Int) ≤ 7) :=
  C9_search_result_invariants ArxivClient.feedEmptySeven "q" 10
    { papers := [], total_results := 7, results_returned := 0 } rfl

/-- C2 counterexample: the full-text path with a successful lookup and a
PDF link emits TWO HTTP GETs (the metadata lookup and the PDF download)
after a SINGLE rate-gate admission — its trace is not gated, so the PDF
fetch is issued without an admission of its own and is not held to the
3-second spacing. -/
theorem C2_counterexample :
    ¬ ArxivClient.Gated
        (ArxivClient.get_paper_text_from_pdf ArxivClient.fullEnvOk "2103.08220").1 :=
  fun hg => absurd (hg 3) (by decide)

/-- C2 amended: `search` and `get_paper` each admit through the rate gate
before their single HTTP GET, so their traces are gated; the full-text
path, however, only reuses the admission taken inside the embedded
`get_paper` call — its trace is the lookup trace, possibly extended by
one more (PDF) GET with NO further admission. -/
theorem C2_metadata_gated_pdf_not
    (o : ArxivClient.HttpOutcome) (q paper_id : String) (mr : Int)
    (env : ArxivClient.FullTextEnv) :
    ArxivClient.Gated (ArxivClient.search o q mr).1 ∧
    ArxivClient.Gated (ArxivClient.get_paper o paper_id).1 ∧
    ((ArxivClient.get_paper_text_from_pdf env paper_id).1 =
        ArxivClient.getPaperEvents ∨
      ∃ u, (ArxivClient.get_paper_text_from_pdf env paper_id).1 =
        ArxivClient.getPaperEvents ++ [ArxivClient.Event.httpGet u none]) := by
  refine ⟨?_, ?_, ?_⟩
  · intro n
    rcases n with _ | _ | n <;>
      simp [ArxivClient.search, ArxivClient.searchEvents,
        ArxivClient.countGets, ArxivClient.countAcquires, List.take]
  · intro n
    rcases n with _ | _ | n <;>
      simp [ArxivClient.get_paper, ArxivClient.getPaperEvents,
        ArxivClient.countGets, ArxivClient.countAcquires, List.take]
  · cases hv : ArxivClient.getPaperValue env.paperOutcome paper_id with
    | error e =>
        exact Or.inl (by simp [ArxivClient.get_paper_text_from_pdf, hv])
    | ok paper =>
        by_cases hm : paper.pdf_url = none ∨ paper.pdf_url = some ""
        · exact Or.inl (by simp [ArxivClient.get_paper_text_from_pdf, hv, hm])
        · refine Or.inr ⟨paper.pdf_url.getD "", ?_⟩
          cases hd : env.downloadOutcome with
          | error e => simp [ArxivClient.get_paper_text_from_pdf, hv, hm, hd]
          | ok u =>
              cases hc : env.convOutcome <;>
                simp [ArxivClient.get_paper_text_from_pdf, hv, hm, hd, hc]

/-- C8: once the paper lookup has succeeded, `get_paper_text_from_pdf`
never raises: with no (or an empty) `pdfUrl` it returns a result string
naming the paper id and reporting that no PDF is available; a download
exception, a conversion exception, or the 60-second conversion timeout
are each returned as descriptive strings, never propagated. -/
theorem C8_full_text_never_raises (env : ArxivClient.FullTextEnv)
    (paper_id : String) (paper : ArxivClient.Paper)
    (h : ArxivClient.getPaperValue env.paperOutcome paper_id = .ok paper) :
    (∃ s, (ArxivClient.get_paper_text_from_pdf env paper_id).2 = .ok s) ∧
    (ArxivClient.pdfMissing paper.pdf_url →
      (ArxivClient.get_paper_text_from_pdf env paper_id).2 =
        .ok ("No PDF URL found for paper: " ++ paper_id)) ∧
    (∀ e, ¬ ArxivClient.pdfMissing paper.pdf_url →
      env.downloadOutcome = .error e →
      (ArxivClient.get_paper_text_from_pdf env paper_id).2 =
        .ok ("Error while converting paper to Markdown: " ++ e)) ∧
    (¬ ArxivClient.pdfMissing paper.pdf_url → env.downloadOutcome = .ok () →
      env.convOutcome = .timeout →
      (ArxivClient.get_paper_text_from_pdf env paper_id).2 =
        .ok ("Timeout: PDF conversion exceeded 60 seconds for paper " ++ paper_id)) ∧
    (∀ e, ¬ ArxivClient.pdfMissing paper.pdf_url → env.downloadOutcome = .ok () →
      env.convOutcome = .raised e →
      (ArxivClient.get_paper_text_from_pdf env paper_id).2 =
        .ok ("Error while converting paper to Markdown: " ++ e)) := by
  refine ⟨?_, ?_, ?_, ?_, ?_⟩
  · by_cases hm : paper.pdf_url = none ∨ paper.pdf_url = some ""
    · exact ⟨"No PDF URL found for paper: " ++ paper_id,
        by simp [ArxivClient.get_paper_text_from_pdf, h, hm]⟩
    · cases hd : env.downloadOutcome with
      | error e =>
          exact ⟨"Error while converting paper to Markdown: " ++ e,
            by simp [ArxivClient.get_paper_text_from_pdf, h, hm, hd]⟩
      | ok u =>
          cases hc : env.convOutcome with
          | ok markdown =>
              exact ⟨markdown,
                by simp [ArxivClient.get_paper_text_from_pdf, h, hm, hd, hc]⟩
          | raised e =>
              exact ⟨"Error while converting paper to Markdown: " ++ e,
                by simp [ArxivClient.get_paper_text_from_pdf, h, hm, hd, hc]⟩
          | timeout =>
              exact ⟨"Timeout: PDF conversion exceeded 60 seconds for paper " ++ paper_id,
                by simp [ArxivClient.get_paper_text_from_pdf, h, hm, hd, hc]⟩
  · intro hm
    unfold ArxivClient.pdfMissing at hm
    simp [ArxivClient.get_paper_text_from_pdf, h, hm]
  · intro e hm hd
    unfold ArxivClient.pdfMissing at hm
    simp [ArxivClient.get_paper_text_from_pdf, h, hm, hd]
  · intro hm hd hc
    unfold ArxivClient.pdfMissing at hm
    simp [ArxivClient.get_paper_text_from_pdf, h, hm, hd, hc]
  · intro e hm hd hc
    unfold ArxivClient.pdfMissing at hm
    simp [ArxivClient.get_paper_text_from_pdf, h, hm, hd, hc]

/-- Witness for C8: the environment whose lookup succeeds on an entry
with no PDF link — the call returns the no-PDF result string naming the
id, and every clause of the theorem holds at it. -/
theorem C8_full_text_never_raises_witness :
    (∃ s, (ArxivClient.get_paper_text_from_pdf ArxivClient.fullEnvNoPdf
      "2103.08220").2 = .ok s) ∧
    (ArxivClient.pdfMissing (ArxivClient.parse_entry ArxivClient.entryNoPdf).pdf_url →
      (ArxivClient.get_paper_text_from_pdf ArxivClient.fullEnvNoPdf "2103.08220").2 =
        .ok ("No PDF URL found for paper: " ++ "2103.08220")) ∧
    (∀ e, ¬ ArxivClient.pdfMissing (ArxivClient.parse_entry ArxivClient.entryNoPdf).pdf_url →
      ArxivClient.fullEnvNoPdf.downloadOutcome = .error e →
      (ArxivClient.get_paper_text_from_pdf ArxivClient.fullEnvNoPdf "2103.08220").2 =
        .ok ("Error while converting paper to Markdown: " ++ e)) ∧
    (¬ ArxivClient.pdfMissing (ArxivClient.parse_entry ArxivClient.entryNoPdf).pdf_url →
      ArxivClient.fullEnvNoPdf.downloadOutcome = .ok () →
      ArxivClient.fullEnvNoPdf.convOutcome = .timeout →
      (ArxivClient.get_paper_text_from_pdf ArxivClient.fullEnvNoPdf "2103.08220").2 =
        .ok ("Timeout: PDF conversion exceeded 60 seconds for paper " ++ "2103.08220")) ∧
    (∀ e, ¬ ArxivClient.pdfMissing (ArxivClient.parse_entry ArxivClient.entryNoPdf).pdf_url →
      ArxivClient.fullEnvNoPdf.downloadOutcome = .ok () →
      ArxivClient.fullEnvNoPdf.convOutcome = .raised e →
      (ArxivClient.get_paper_text_from_pdf ArxivClient.fullEnvNoPdf "2103.08220").2 =
        .ok ("Error while converting paper to Markdown: " ++ e)) :=
  C8_full_text_never_raises ArxivClient.fullEnvNoPdf "2103.08220"
    (ArxivClient.parse_entry ArxivClient.entryNoPdf) rfl

/-- C10: the paper lookup of the full-text path sits outside the
error-downgrading try block — every lookup failure (not-found, upstream
HTTP error, malformed feed) propagates out of `get_paper_text_from_pdf`
and out of the `get_full_paper_text` tool unchanged, while a successful
lookup always ends in a returned string. -/
theorem C10_lookup_errors_propagate (env : ArxivClient.FullTextEnv)
    (paper_id : String) :
    (∀ e, ArxivClient.getPaperValue env.paperOutcome paper_id = .error e →
      (ArxivClient.get_paper_text_from_pdf env paper_id).2 = .error e ∧
      Server.get_full_paper_text env paper_id = .error e) ∧
    (∀ paper, ArxivClient.getPaperValue env.paperOutcome paper_id = .ok paper →
      ∃ s, Server.get_full_paper_text env paper_id = .ok s) := by
  constructor
  · intro e he
    have hv : (ArxivClient.get_paper_text_from_pdf env paper_id).2 = .error e := by
      simp [ArxivClient.get_paper_text_from_pdf, he]
    exact ⟨hv, hv⟩
  · intro paper hp
    show ∃ s, (ArxivClient.get_paper_text_from_pdf env paper_id).2 = .ok s
    by_cases hm : paper.pdf_url = none ∨ paper.pdf_url = some ""
    · exact ⟨"No PDF URL found for paper: " ++ paper_id,
        by simp [ArxivClient.get_paper_text_from_pdf, hp, hm]⟩
    · cases hd : env.downloadOutcome with
      | error e =>
          exact ⟨"Error while converting paper to Markdown: " ++ e,
            by simp [ArxivClient.get_paper_text_from_pdf, hp, hm, hd]⟩
      | ok u =>
          cases hc : env.convOutcome with
          | ok markdown =>
              exact ⟨markdown,
                by simp [ArxivClient.get_paper_text_from_pdf, hp, hm, hd, hc]⟩
          | raised e =>
              exact ⟨"Error while converting paper to Markdown: " ++ e,
                by simp [ArxivClient.get_paper_text_from_pdf, hp, hm, hd, hc]⟩
          | timeout =>
              exact ⟨"Timeout: PDF conversion exceeded 60 seconds for paper " ++ paper_id,
                by simp [ArxivClient.get_paper_text_from_pdf, hp, hm, hd, hc]⟩

/-- C3 counterexample: both dates are valid `YYYY-MM-DD` dates and the
range is forward in time, but `strftime("%Y%m%d")` renders year 999
WITHOUT zero padding, so the code compacts `0999-01-01` to
`99901010000`, which compares lexicographically above `202401012359` —
the call returns the ordering error instead of the reference
definition's filter `submittedDate:[099901010000 TO 202401012359]`. -/
theorem C3_counterexample :
    parseYMD "0999-01-01" = some (999, 1, 1) ∧
    Server.parse_date_filter "20261012" (some "0999-01-01") (some "2024-01-01") =
      ("", some Server.orderMsg) ∧
    buildDateFilterRef "20261012" (some "0999-01-01") (some "2024-01-01") =
      ("submittedDate:[099901010000 TO 202401012359]", none) ∧
    Server.parse_date_filter "20261012" (some "0999-01-01") (some "2024-01-01") ≠
      buildDateFilterRef "20261012" (some "0999-01-01") (some "2024-01-01") := by
  refine ⟨by decide, by decide, by decide, by decide⟩

/-- C3 amended: `parse_date_filter` meets the claim's reference
definition (clauses (a)-(f), transcribed as `buildDateFilterRef`) on
every input whose given dates, when they parse, have a year of at least
1000 — for those years the unpadded `%Y` equals the reference's
zero-padded `YYYYMMDD` compaction.  (Years 1..999 diverge, see the
counterexample.) -/
theorem C3_date_filter_meets_reference (today : String) (df dt : Option String)
    (hdf : ∀ s y m d, df = some s → parseYMD s = some (y, m, d) → 1000 ≤ y)
    (hdt : ∀ s y m d, dt = some s → parseYMD s = some (y, m, d) → 1000 ≤ y) :
    Server.parse_date_filter today df dt = buildDateFilterRef today df dt := by
  cases hf : Server.truthyOpt df with
  | false =>
      cases ht : Server.truthyOpt dt with
      | false => simp [Server.parse_date_filter, buildDateFilterRef, hf, ht]
      | true =>
          cases hq : parseYMD (dt.getD "") with
          | none => simp [Server.parse_date_filter, buildDateFilterRef, hf, ht, hq]
          | some ymd =>
              obtain ⟨y, m, d⟩ := ymd
              have hy : 1000 ≤ y := by
                cases dt with
                | none => simp [Server.truthyOpt] at ht
                | some s => exact hdt s y m d rfl hq
              simp [Server.parse_date_filter, buildDateFilterRef, hf, ht, hq,
                ymdCompact_eq_ref m d hy]
  | true =>
      cases hp : parseYMD (df.getD "") with
      | none => simp [Server.parse_date_filter, buildDateFilterRef, hf, hp]
      | some ymdf =>
          obtain ⟨y1, m1, d1⟩ := ymdf
          have hy1 : 1000 ≤ y1 := by
            cases df with
            | none => simp [Server.truthyOpt] at hf
            | some s => exact hdf s y1 m1 d1 rfl hp
          cases ht : Server.truthyOpt dt with
          | false =>
              simp [Server.parse_date_filter, buildDateFilterRef, hf, ht, hp,
                ymdCompact_eq_ref m1 d1 hy1]
          | true =>
              cases hq : parseYMD (dt.getD "") with
              | none =>
                  simp [Server.parse_date_filter, buildDateFilterRef, hf, ht, hp, hq]
              | some ymdt =>
                  obtain ⟨y2, m2, d2⟩ := ymdt
                  have hy2 : 1000 ≤ y2 := by
                    cases dt with
                    | none => simp [Server.truthyOpt] at ht
                    | some s => exact hdt s y2 m2 d2 rfl hq
                  simp [Server.parse_date_filter, buildDateFilterRef, hf, ht, hp, hq,
                    ymdCompact_eq_ref m1 d1 hy1, ymdCompact_eq_ref m2 d2 hy2]

/-- Witness for C3: at the spec's own example
(`dateFrom = 2024-01-01`, `dateTo = 2024-12-31`) the code equals the
reference definition; both produce
`submittedDate:[202401010000 TO 202412312359]` with no error. -/
theorem C3_date_filter_meets_reference_witness :
    Server.parse_date_filter "20261012" (some "2024-01-01") (some "2024-12-31") =
      buildDateFilterRef "20261012" (some "2024-01-01") (some "2024-12-31") :=
  C3_date_filter_meets_reference "20261012" (some "2024-01-01") (some "2024-12-31")
    (by
      intro s y m d hs hp
      cases hs
      rw [show parseYMD "2024-01-01" = some (2024, 1, 1) from by decide] at hp
      injection hp with hp1
      injection hp1 with h1 h2
      omega)
    (by
      intro s y m d hs hp
      cases hs
      rw [show parseYMD "2024-12-31" = some (2024, 12, 31) from by decide] at hp
      injection hp with hp1
      injection hp1 with h1 h2
      omega)

end McpArxiv
